import Mathlib

/-!
Verification of the plugin discovery and orchestration core of the
web-style-extractor: `PluginManager` (src/core/plugin_manager.py),
`FormatManager` (src/core/format_manager.py) and
`WebStyleExtractorEngine` (src/core/engine.py).

Python dicts are modelled as insertion-ordered association lists
(`List (String × α)`) with overwrite-in-place insertion, Python sets as
duplicate-free lists with insert-if-absent, and `None`/truthiness via
`Option`.  Plugin calls that may raise are modelled as `Except String`.
Side effects that the claims observe (which plugins were invoked, whether
the webdriver was quit) are recorded in an explicit `Trace`.
-/

namespace WebStyleExtractor

/-- Lookup in a Python-dict model: first entry whose key matches. -/
def dictLookup {α : Type} (m : List (String × α)) (k : String) : Option α :=
  match m with
  | [] => none
  | (k', v) :: rest => if k' = k then some v else dictLookup rest k

/-- Python `d[k] = v`: overwrite the (first) entry with key `k` in place,
else append at the end, preserving insertion order. -/
def dictInsert {α : Type} (m : List (String × α)) (k : String) (v : α) :
    List (String × α) :=
  match m with
  | [] => [(k, v)]
  | (k', v') :: rest =>
    if k' = k then (k, v) :: rest else (k', v') :: dictInsert rest k v

/-- Python `list(d.keys())`. -/
def dictKeys {α : Type} (m : List (String × α)) : List String :=
  m.map Prod.fst

/-- Python `s.add(x)` on a set modelled as a duplicate-free list. -/
def setInsert (l : List String) (n : String) : List String :=
  if n ∈ l then l else l ++ [n]

/-! ## Data model

`mapping(string -> any)` values crossing the plugin boundary: the spec puts
the literal content of extractor results and generated artifacts out of
scope, so `any` is modelled as `String` and a result mapping as an
association list; the empty mapping is `[]`. -/

/-- A value of a format-metadata record: a string or a list of strings
(`capabilities`, `use_cases`). -/
inductive MVal : Type
  | s (v : String)
  | l (v : List String)
deriving DecidableEq

/-- A `mapping(string -> any)` returned by an extractor or generator. -/
abbrev ResultMap : Type := List (String × String)

/-- A format-metadata record (`base_config`, `metadata` in
`format_manager.py`). -/
abbrev MetaDict : Type := List (String × MVal)

/-- The payload `generator_data` packaged in `engine.py` lines 60-64. -/
structure GenPayload : Type where
  url : String
  extraction : List (String × ResultMap)
  timestamp : String

/-- An extractor plugin instance (`BaseExtractor`): `extract(soup, driver,
url)` may raise, modelled as `Except`.  The parsed document (soup) is the
page text; the webdriver handle is opaque (`Option Unit`, `none` when
WebDriver setup failed). -/
structure ExtractorI : Type where
  run : String → Option Unit → String → Except String ResultMap

/-- A generator plugin instance (`BaseGenerator`): `output_format` is its
identity key; the optional metadata properties return `None` by default
(modelled as `none`); `generate(data, output_path)` may raise. -/
structure GeneratorI : Type where
  output_format : String
  description : Option String := none
  emoji : Option String := none
  short_description : Option String := none
  full_description : Option String := none
  file_extension : Option String := none
  capabilities : Option (List String) := none
  use_cases : Option (List String) := none
  run : GenPayload → Option String → Except String ResultMap

/-- Python truthiness of an optional string (`if plugin.description:`):
`None` and the empty string are falsy. -/
def truthyS (o : Option String) : Bool :=
  match o with
  | none => false
  | some s => !(s = "")

/-- Python truthiness of an optional list (`if plugin.capabilities:`):
`None` and the empty list are falsy. -/
def truthyL (o : Option (List String)) : Bool :=
  match o with
  | none => false
  | some l => !(l = [])

/-! ## PluginManager (src/core/plugin_manager.py)

The registry state: `self.extractors`, `self.generators` (dicts),
`self.loaded_plugins` (set) and the enable-policy configuration read by
`_load_plugin_config` (`config.get('enabled_extractors', [])`; a missing
key is the empty list). -/

structure PluginManager : Type where
  extractors : List (String × ExtractorI) := []
  generators : List (String × GeneratorI) := []
  loaded_plugins : List String := []
  config_enabled_extractors : List String := []
  config_enabled_generators : List String := []

/-- `get_extractor`: `self.extractors.get(name)`. -/
def PluginManager.get_extractor (pm : PluginManager) (name : String) :
    Option ExtractorI :=
  dictLookup pm.extractors name

/-- `get_generator`: `self.generators.get(name)`. -/
def PluginManager.get_generator (pm : PluginManager) (name : String) :
    Option GeneratorI :=
  dictLookup pm.generators name

/-- `get_available_extractors`: with a truthy (non-empty) enabled list,
the names of the list that are registered, in list order; otherwise all
registered names. -/
def PluginManager.get_available_extractors (pm : PluginManager) :
    List String :=
  let enabled := pm.config_enabled_extractors
  if enabled ≠ [] then
    enabled.filter (fun name => (dictLookup pm.extractors name).isSome)
  else
    dictKeys pm.extractors

/-- `get_available_generators`: all registered generator names, no
enable-list filtering. -/
def PluginManager.get_available_generators (pm : PluginManager) :
    List String :=
  dictKeys pm.generators

/-- `get_generators`: `list(self.generators.values())`. -/
def PluginManager.get_generators (pm : PluginManager) : List GeneratorI :=
  pm.generators.map Prod.snd

/-! ## Plugin discovery (plugin_manager.py lines 33-75)

The plugin source set seen by one `discover_plugins()` call: the
directory listings of the two plugin roots (already restricted to
immediate subdirectories, as `os.path.isdir` does) and, for each name,
the outcome of importing the module and calling its factory —
`none` when the import fails, the module lacks the factory attribute, or
the factory raises (all of which skip registration). -/

structure PluginSource : Type where
  extractor_listing : List String
  generator_listing : List String
  load_extractor : String → Option ExtractorI
  load_generator : String → Option GeneratorI

/-- `_register_extractor`: on successful load, `self.extractors[name] =
extractor; self.loaded_plugins.add(name)`; otherwise no state change. -/
def register_extractor_step (src : PluginSource) (pm : PluginManager)
    (name : String) : PluginManager :=
  match src.load_extractor name with
  | some e =>
    { pm with extractors := dictInsert pm.extractors name e,
              loaded_plugins := setInsert pm.loaded_plugins name }
  | none => pm

/-- `_register_generator`, same shape as `_register_extractor`. -/
def register_generator_step (src : PluginSource) (pm : PluginManager)
    (name : String) : PluginManager :=
  match src.load_generator name with
  | some g =>
    { pm with generators := dictInsert pm.generators name g,
              loaded_plugins := setInsert pm.loaded_plugins name }
  | none => pm

/-- `discover_plugins`: register every immediate subdirectory of the two
plugin roots whose name does not start with `__`, extractors first. -/
def discover_plugins (src : PluginSource) (pm : PluginManager) :
    PluginManager :=
  let pm1 := (src.extractor_listing.filter
      (fun item => !item.startsWith "__")).foldl
      (register_extractor_step src) pm
  (src.generator_listing.filter
      (fun item => !item.startsWith "__")).foldl
      (register_generator_step src) pm1

/-! ## FormatManager (src/core/format_manager.py) -/

/-- Modelled from the spec: `format_configs.get_format_config` — the module
`format_configs.py` imported by `format_manager.py` is not among the
sources.  §4.2: "look up static fallback record for formatName (empty
record if unknown format)"; the static table (`FORMAT_CONFIGS`) is passed
as `table`. -/
def get_format_config (table : List (String × MetaDict)) (fmt : String) :
    MetaDict :=
  (dictLookup table fmt).getD []

/-- The seven conditional overrides of `get_format_metadata`
(format_manager.py lines 46-61): each field the plugin declares truthy
overwrites the corresponding key of the base record. -/
def apply_plugin_overrides (plugin : GeneratorI) (base : MetaDict) :
    MetaDict :=
  let m0 := base
  let m1 := if truthyS plugin.description then
      dictInsert m0 "description" (MVal.s (plugin.description.getD "")) else m0
  let m2 := if truthyS plugin.emoji then
      dictInsert m1 "emoji" (MVal.s (plugin.emoji.getD "")) else m1
  let m3 := if truthyS plugin.short_description then
      dictInsert m2 "short_description"
        (MVal.s (plugin.short_description.getD "")) else m2
  let m4 := if truthyS plugin.full_description then
      dictInsert m3 "full_description"
        (MVal.s (plugin.full_description.getD "")) else m3
  let m5 := if truthyS plugin.file_extension then
      dictInsert m4 "file_extension"
        (MVal.s (plugin.file_extension.getD "")) else m4
  let m6 := if truthyL plugin.capabilities then
      dictInsert m5 "capabilities" (MVal.l (plugin.capabilities.getD []))
      else m5
  let m7 := if truthyL plugin.use_cases then
      dictInsert m6 "use_cases" (MVal.l (plugin.use_cases.getD [])) else m6
  m7

/-- The format-metadata resolver state: the registry it reads, the
`_cache` dict, and the static fallback table it consults through
`get_format_config`. -/
structure FormatManager : Type where
  plugin_manager : PluginManager
  cache : List (String × MetaDict) := []
  format_configs : List (String × MetaDict) := []

/-- `get_available_formats`: the `output_format` of every registered
generator, registry order. -/
def FormatManager.get_available_formats (fm : FormatManager) :
    List String :=
  (fm.plugin_manager.get_generators).map (fun gen => gen.output_format)

/-- `get_format_metadata`: serve from cache when present; otherwise find
the first generator whose `output_format` matches, start from the static
base record, apply the plugin's truthy fields on top, and cache the
result.  Returns the record and the updated manager. -/
def FormatManager.get_format_metadata (fm : FormatManager)
    (format_name : String) : MetaDict × FormatManager :=
  match dictLookup fm.cache format_name with
  | some m => (m, fm)
  | none =>
    let plugin := (fm.plugin_manager.get_generators).find?
      (fun gen => gen.output_format == format_name)
    let base_config := get_format_config fm.format_configs format_name
    let metadata :=
      match plugin with
      | some p => apply_plugin_overrides p base_config
      | none => base_config
    (metadata, { fm with cache := dictInsert fm.cache format_name metadata })

/-- `get_default_format`: raise `RuntimeError` (modelled as `.error`) when
no formats are available, prefer `"mediawiki"`, else the first available
format. -/
def FormatManager.get_default_format (fm : FormatManager) :
    Except String String :=
  let available := fm.get_available_formats
  if available = [] then
    Except.error "No generator plugins available"
  else if "mediawiki" ∈ available then
    Except.ok "mediawiki"
  else
    Except.ok (available.headD "")

/-! ## WebStyleExtractorEngine (src/core/engine.py)

The engine's two collaborators are modelled by their observable results:
`setup_webdriver` is what `_setup_webdriver()` returns (`none` on
`WebDriverException`), `get_soup` is what `_get_soup(url)` returns
(`none` when fetching or parsing fails — `_get_soup` catches every
exception).  `now` is the timestamp string.  A `Trace` records the side
effects the specification talks about: which plugins were actually
invoked and whether `driver.quit()` ran. -/

structure Trace : Type where
  invoked_extractors : List String
  invoked_generators : List String
  driver_quit : Bool
deriving DecidableEq

structure WebStyleExtractorEngine : Type where
  plugin_manager : PluginManager
  setup_webdriver : Option Unit
  get_soup : String → Option String
  now : String

/-- Python `enabled_extractors or default` (engine.py lines 43 and 57):
`None` and the empty list both fall through to the default. -/
def resolveList (caller : Option (List String)) (dflt : List String) :
    List String :=
  match caller with
  | none => dflt
  | some l => if l = [] then dflt else l

/-- Step 3, engine.py line 43: the resolved extractor name list. -/
def resolved_extractors (pm : PluginManager)
    (enabled_extractors : Option (List String)) : List String :=
  resolveList enabled_extractors pm.get_available_extractors

/-- Step 6, engine.py line 57: the resolved generator name list. -/
def resolved_generators (pm : PluginManager)
    (enabled_generators : Option (List String)) : List String :=
  resolveList enabled_generators pm.get_available_generators

/-- The recorded outcome of one extractor invocation: its result mapping
on success, the empty mapping when it raises (engine.py lines 49-53). -/
def extractor_result (e : ExtractorI) (soup : String) (driver : Option Unit)
    (url : String) : ResultMap :=
  match e.run soup driver url with
  | Except.ok r => r
  | Except.error _ => []

/-- The recorded outcome of one generator invocation (engine.py lines
70-74). -/
def generator_result (g : GeneratorI) (data : GenPayload)
    (output_path : Option String) : ResultMap :=
  match g.run data output_path with
  | Except.ok r => r
  | Except.error _ => []

/-- One iteration of either plugin loop: look up the resolved name, skip
silently when absent, otherwise invoke the plugin and record its (possibly
empty) result under its key; the second component collects the invoked
names. -/
def plugin_step {β : Type} (lookup_plugin : String → Option β)
    (result_of : β → ResultMap)
    (acc : List (String × ResultMap) × List String) (name : String) :
    List (String × ResultMap) × List String :=
  match lookup_plugin name with
  | some p => (dictInsert acc.1 name (result_of p), acc.2 ++ [name])
  | none => acc

/-- The extractor loop (engine.py lines 45-53). -/
def run_extractors (pm : PluginManager) (soup : String)
    (driver : Option Unit) (url : String) (names : List String) :
    List (String × ResultMap) × List String :=
  names.foldl
    (plugin_step pm.get_extractor
      (fun e => extractor_result e soup driver url))
    ([], [])

/-- The generator loop (engine.py lines 66-74), same shape as the
extractor loop. -/
def run_generators (pm : PluginManager) (data : GenPayload)
    (output_path : Option String) (names : List String) :
    List (String × ResultMap) × List String :=
  names.foldl
    (plugin_step pm.get_generator
      (fun g => generator_result g data output_path))
    ([], [])

/-- The full result dict of engine.py lines 76-84. -/
structure RunInfo : Type where
  url : String
  extraction : List (String × ResultMap)
  generation : List (String × ResultMap)
  extractors_used : List String
  generators_used : List String
deriving DecidableEq

/-- What `extract` returns: the empty dict on page failure, else the full
result. -/
inductive RunResult : Type
  | empty
  | full (info : RunInfo)
deriving DecidableEq

def RunResult.extraction : RunResult → List (String × ResultMap)
  | RunResult.empty => []
  | RunResult.full info => info.extraction

def RunResult.generation : RunResult → List (String × ResultMap)
  | RunResult.empty => []
  | RunResult.full info => info.generation

def RunResult.extractors_used : RunResult → List String
  | RunResult.empty => []
  | RunResult.full info => info.extractors_used

def RunResult.generators_used : RunResult → List String
  | RunResult.empty => []
  | RunResult.full info => info.generators_used

/-- `WebStyleExtractorEngine.extract` (engine.py lines 29-88).  The
`try`/`finally` begins only after the soup check: on fetch failure the
function returns `{}` without quitting the driver; on the normal path the
`finally` quits the driver when one was acquired (no exception escapes the
`try` body, since every plugin invocation is individually guarded). -/
def WebStyleExtractorEngine.extract (self : WebStyleExtractorEngine)
    (url : String) (enabled_extractors : Option (List String))
    (enabled_generators : Option (List String))
    (output_path : Option String) : RunResult × Trace :=
  let driver := self.setup_webdriver
  match self.get_soup url with
  | none => (RunResult.empty, ⟨[], [], false⟩)
  | some soup =>
    let extractors := resolved_extractors self.plugin_manager
      enabled_extractors
    let er := run_extractors self.plugin_manager soup driver url extractors
    let generators := resolved_generators self.plugin_manager
      enabled_generators
    let generator_data : GenPayload := ⟨url, er.1, self.now⟩
    let gr := run_generators self.plugin_manager generator_data output_path
      generators
    (RunResult.full ⟨url, er.1, gr.1, dictKeys er.1, dictKeys gr.1⟩,
     ⟨er.2, gr.2, driver.isSome⟩)

/-! ## Concrete fixtures

Small concrete plugin instances, registries, resolvers and engines used
by the witness and counterexample theorems below. -/

/-- An extractor that succeeds with a non-empty result mapping. -/
def extOk : ExtractorI := ⟨fun _ _ _ => Except.ok [("k", "v")]⟩

/-- An extractor whose `extract` always raises. -/
def extBoom : ExtractorI := ⟨fun _ _ _ => Except.error "boom"⟩

def genJson : GeneratorI :=
  { output_format := "json", run := fun _ _ => Except.ok [("file", "out.json")] }

def genCss : GeneratorI :=
  { output_format := "css", run := fun _ _ => Except.ok [] }

def genMw : GeneratorI :=
  { output_format := "mediawiki", run := fun _ _ => Except.ok [] }

/-- A generator declaring some metadata fields and leaving others unset. -/
def genDecorated : GeneratorI :=
  { output_format := "json", emoji := some "X",
    description := some "plugin json description",
    run := fun _ _ => Except.ok [] }

def pmTwo : PluginManager :=
  { extractors := [("good_extractor", extOk), ("bad_extractor", extBoom)],
    generators := [("json_generator", genJson)] }

def pmEnable : PluginManager :=
  { extractors := [("html_extractor", extOk), ("color_extractor", extOk)],
    generators := [("css_generator", genCss), ("json_generator", genJson),
                   ("mediawiki_generator", genMw)],
    config_enabled_extractors := ["color_extractor", "missing_extractor"],
    config_enabled_generators := ["css_generator"] }

def pmNoConfig : PluginManager :=
  { extractors := [("color_extractor", extOk), ("font_extractor", extOk)] }

def fmWithMw : FormatManager :=
  { plugin_manager :=
      { generators := [("css_generator", genCss),
                       ("mediawiki_generator", genMw)] } }

def fmNoMw : FormatManager :=
  { plugin_manager :=
      { generators := [("css_generator", genCss),
                       ("json_generator", genJson)] } }

def fmNoGen : FormatManager := { plugin_manager := {} }

/-- Resolver whose static table declares `emoji = "Y"` and a short
description for `json`, while the registered `json` generator declares
`emoji = "X"` and a description but no short description. -/
def fmHybrid : FormatManager :=
  { plugin_manager := { generators := [("json_generator", genDecorated)] },
    format_configs :=
      [("json", [("emoji", MVal.s "Y"),
                 ("short_description", MVal.s "fallback short")])] }

/-- Engine whose webdriver comes up but whose page fetch fails. -/
def engDown : WebStyleExtractorEngine := ⟨{}, some (), fun _ => none, "ts"⟩

/-- Engine with an empty registry and a reachable page. -/
def engGhost : WebStyleExtractorEngine :=
  ⟨{}, none, fun _ => some "<html>", "ts"⟩

/-- Engine over `pmTwo` with a reachable page. -/
def engRun : WebStyleExtractorEngine :=
  ⟨pmTwo, none, fun _ => some "<html>", "ts"⟩

/-! # Theorems -/

/-! ## Dictionary and set lemmas -/

theorem dictLookup_dictInsert {α : Type} (m : List (String × α)) (k k' : String)
    (v : α) :
    dictLookup (dictInsert m k v) k' =
      if k = k' then some v else dictLookup m k' := by
  induction m with
  | nil =>
    simp only [dictInsert, dictLookup]
  | cons hd tl ih =>
    obtain ⟨k₀, v₀⟩ := hd
    by_cases h0 : k₀ = k
    · subst h0
      simp only [dictInsert, if_pos rfl, dictLookup]
      by_cases h1 : k₀ = k'
      · simp [h1]
      · simp [h1]
    · simp only [dictInsert, if_neg h0, dictLookup, ih]
      by_cases h1 : k₀ = k'
      · subst h1
        simp only [if_pos rfl]
        have : ¬ k = k₀ := fun h => h0 h.symm
        simp [this]
      · simp [h1]

theorem dictInsert_self {α : Type} (m : List (String × α)) (k : String) (v : α)
    (h : dictLookup m k = some v) : dictInsert m k v = m := by
  induction m with
  | nil => simp [dictLookup] at h
  | cons hd tl ih =>
    obtain ⟨k₀, v₀⟩ := hd
    by_cases h0 : k₀ = k
    · subst h0
      rw [dictLookup, if_pos rfl] at h
      injection h with h
      simp [dictInsert, h]
    · simp only [dictLookup, if_neg h0] at h
      simp [dictInsert, h0, ih h]

theorem setInsert_self (l : List String) (n : String) (h : n ∈ l) :
    setInsert l n = l := by
  simp [setInsert, h]

theorem mem_setInsert_of_mem (l : List String) (n m : String) (h : m ∈ l) :
    m ∈ setInsert l n := by
  unfold setInsert
  by_cases hn : n ∈ l
  · simp [hn, h]
  · simp [hn, List.mem_append, h]

theorem mem_setInsert_same (l : List String) (n : String) :
    n ∈ setInsert l n := by
  unfold setInsert
  by_cases hn : n ∈ l
  · simp [hn]
  · simp [hn]

theorem dictLookup_isSome_of_mem_keys {α : Type} (m : List (String × α))
    (k : String) (h : k ∈ dictKeys m) : (dictLookup m k).isSome := by
  induction m with
  | nil => simp [dictKeys] at h
  | cons hd tl ih =>
    obtain ⟨k₀, v₀⟩ := hd
    simp only [dictKeys, List.map_cons, List.mem_cons] at h
    by_cases h0 : k₀ = k
    · simp [dictLookup, h0]
    · rcases h with h | h
      · exact absurd h.symm h0
      · simpa [dictLookup, h0] using ih h

theorem not_mem_keys_of_dictLookup_eq_none {α : Type} (m : List (String × α))
    (k : String) (h : dictLookup m k = none) : k ∉ dictKeys m := by
  intro hmem
  have := dictLookup_isSome_of_mem_keys m k hmem
  rw [h] at this
  simp at this

theorem dictLookup_override_same {α : Type} (c : Bool)
    (m : List (String × α)) (k : String) (v : α) :
    dictLookup (if c then dictInsert m k v else m) k =
      if c then some v else dictLookup m k := by
  cases c <;> simp [dictLookup_dictInsert]

theorem dictLookup_override_ne {α : Type} (c : Bool)
    (m : List (String × α)) (k k' : String) (v : α) (h : ¬ k = k') :
    dictLookup (if c then dictInsert m k v else m) k' = dictLookup m k' := by
  cases c <;> simp [dictLookup_dictInsert, h]

/-! ## Characterisation of the plugin loops -/

theorem foldl_plugin_step_fst_lookup {β : Type}
    (lookup_plugin : String → Option β) (result_of : β → ResultMap)
    (names : List String) (acc : List (String × ResultMap) × List String)
    (n : String) :
    dictLookup (names.foldl (plugin_step lookup_plugin result_of) acc).1 n =
      match lookup_plugin n with
      | some p =>
        if n ∈ names then some (result_of p) else dictLookup acc.1 n
      | none => dictLookup acc.1 n := by
  induction names generalizing acc with
  | nil =>
    cases lookup_plugin n <;> simp
  | cons a l ih =>
    rw [List.foldl_cons, ih]
    by_cases han : a = n
    · subst han
      cases hga : lookup_plugin a with
      | none => simp [plugin_step, hga]
      | some p =>
        simp [plugin_step, hga, dictLookup_dictInsert]
    · cases hgn : lookup_plugin n with
      | none =>
        cases hga : lookup_plugin a with
        | none => simp [plugin_step, hga]
        | some p => simp [plugin_step, hga, dictLookup_dictInsert, han]
      | some p =>
        have hmem : (n ∈ a :: l) ↔ (n ∈ l) := by
          constructor
          · intro h
            rcases List.mem_cons.mp h with h | h
            · exact absurd h.symm han
            · exact h
          · intro h
            exact List.mem_cons_of_mem a h
        cases hga : lookup_plugin a with
        | none => simp [plugin_step, hga, hmem]
        | some q =>
          simp only [plugin_step, hga, hmem]
          by_cases hl : n ∈ l
          · simp [hl]
          · simp [hl, dictLookup_dictInsert, han]

theorem foldl_plugin_step_snd {β : Type}
    (lookup_plugin : String → Option β) (result_of : β → ResultMap)
    (names : List String) (acc : List (String × ResultMap) × List String) :
    (names.foldl (plugin_step lookup_plugin result_of) acc).2 =
      acc.2 ++ names.filter (fun n => (lookup_plugin n).isSome) := by
  induction names generalizing acc with
  | nil => simp
  | cons a l ih =>
    rw [List.foldl_cons, ih]
    cases hga : lookup_plugin a with
    | none => simp [plugin_step, hga]
    | some p => simp [plugin_step, hga]

theorem run_extractors_lookup (pm : PluginManager) (soup : String)
    (driver : Option Unit) (url : String) (names : List String)
    (n : String) :
    dictLookup (run_extractors pm soup driver url names).1 n =
      match pm.get_extractor n with
      | some e =>
        if n ∈ names then some (extractor_result e soup driver url)
        else none
      | none => none := by
  unfold run_extractors
  rw [foldl_plugin_step_fst_lookup]
  cases pm.get_extractor n <;> simp [dictLookup]

theorem run_extractors_invoked (pm : PluginManager) (soup : String)
    (driver : Option Unit) (url : String) (names : List String) :
    (run_extractors pm soup driver url names).2 =
      names.filter (fun n => (pm.get_extractor n).isSome) := by
  unfold run_extractors
  rw [foldl_plugin_step_snd]
  simp

theorem run_generators_lookup (pm : PluginManager) (data : GenPayload)
    (output_path : Option String) (names : List String) (n : String) :
    dictLookup (run_generators pm data output_path names).1 n =
      match pm.get_generator n with
      | some g =>
        if n ∈ names then some (generator_result g data output_path)
        else none
      | none => none := by
  unfold run_generators
  rw [foldl_plugin_step_fst_lookup]
  cases pm.get_generator n <;> simp [dictLookup]

theorem run_generators_invoked (pm : PluginManager) (data : GenPayload)
    (output_path : Option String) (names : List String) :
    (run_generators pm data output_path names).2 =
      names.filter (fun n => (pm.get_generator n).isSome) := by
  unfold run_generators
  rw [foldl_plugin_step_snd]
  simp

/-! ## Characterisation of extract on the success path -/

theorem extract_extraction_lookup (eng : WebStyleExtractorEngine)
    (url : String) (exN gnN : Option (List String)) (op : Option String)
    (soup : String) (hf : eng.get_soup url = some soup) (n : String) :
    dictLookup ((eng.extract url exN gnN op).1.extraction) n =
      match eng.plugin_manager.get_extractor n with
      | some e =>
        if n ∈ resolved_extractors eng.plugin_manager exN then
          some (extractor_result e soup eng.setup_webdriver url)
        else none
      | none => none := by
  unfold WebStyleExtractorEngine.extract
  rw [hf]
  exact run_extractors_lookup eng.plugin_manager soup eng.setup_webdriver
    url (resolved_extractors eng.plugin_manager exN) n

theorem extract_generation_lookup_none (eng : WebStyleExtractorEngine)
    (url : String) (exN gnN : Option (List String)) (op : Option String)
    (soup : String) (hf : eng.get_soup url = some soup) (n : String)
    (h : eng.plugin_manager.get_generator n = none) :
    dictLookup ((eng.extract url exN gnN op).1.generation) n = none := by
  unfold WebStyleExtractorEngine.extract
  rw [hf]
  show dictLookup ((run_generators eng.plugin_manager
      ⟨url, (run_extractors eng.plugin_manager soup eng.setup_webdriver url
        (resolved_extractors eng.plugin_manager exN)).1, eng.now⟩ op
      (resolved_generators eng.plugin_manager gnN)).1) n = none
  rw [run_generators_lookup]
  simp [h]

theorem extract_invoked_generators_eq (eng : WebStyleExtractorEngine)
    (url : String) (exN gnN : Option (List String)) (op : Option String)
    (soup : String) (hf : eng.get_soup url = some soup) :
    (eng.extract url exN gnN op).2.invoked_generators =
      (resolved_generators eng.plugin_manager gnN).filter
        (fun g => (eng.plugin_manager.get_generator g).isSome) := by
  unfold WebStyleExtractorEngine.extract
  rw [hf]
  exact run_generators_invoked eng.plugin_manager _ op
    (resolved_generators eng.plugin_manager gnN)

theorem extract_extractors_used_eq (eng : WebStyleExtractorEngine)
    (url : String) (exN gnN : Option (List String)) (op : Option String)
    (soup : String) (hf : eng.get_soup url = some soup) :
    (eng.extract url exN gnN op).1.extractors_used =
      dictKeys ((eng.extract url exN gnN op).1.extraction) := by
  unfold WebStyleExtractorEngine.extract
  rw [hf]
  rfl

theorem extract_generators_used_eq (eng : WebStyleExtractorEngine)
    (url : String) (exN gnN : Option (List String)) (op : Option String)
    (soup : String) (hf : eng.get_soup url = some soup) :
    (eng.extract url exN gnN op).1.generators_used =
      dictKeys ((eng.extract url exN gnN op).1.generation) := by
  unfold WebStyleExtractorEngine.extract
  rw [hf]
  rfl

/-! ## Claim theorems -/

/-- C3: when the document fetch fails, `extract` returns the empty
mapping result and invokes zero extractor plugins and zero generator
plugins. -/
theorem extract_fetch_failure (eng : WebStyleExtractorEngine) (url : String)
    (enabled_extractors enabled_generators : Option (List String))
    (output_path : Option String) (h : eng.get_soup url = none) :
    (eng.extract url enabled_extractors enabled_generators output_path).1 =
      RunResult.empty ∧
    (eng.extract url enabled_extractors enabled_generators
        output_path).2.invoked_extractors = [] ∧
    (eng.extract url enabled_extractors enabled_generators
        output_path).2.invoked_generators = [] := by
  unfold WebStyleExtractorEngine.extract
  rw [h]
  exact ⟨rfl, rfl, rfl⟩

/-- C3 witness: a concrete engine whose fetch fails returns the empty
result without invoking any plugin. -/
theorem extract_fetch_failure_witness :
    engDown.get_soup "http://unreachable.example" = none ∧
    (engDown.extract "http://unreachable.example" none none none).1 =
      RunResult.empty ∧
    (engDown.extract "http://unreachable.example"
        none none none).2.invoked_extractors = [] ∧
    (engDown.extract "http://unreachable.example"
        none none none).2.invoked_generators = [] := by
  have h := extract_fetch_failure engDown "http://unreachable.example"
    none none none rfl
  exact ⟨rfl, h.1, h.2.1, h.2.2⟩

/-- C2: the code leaks the webdriver on the fetch-failure path.  The
`try`/`finally` in engine.py begins only after the `if not soup: return
\x7b\x7d` early return (lines 36-38), so when a driver was acquired (line 33)
and the fetch fails, `extract` returns without calling `driver.quit()` —
contradicting the spec's "guaranteed cleanup on every exit path from Step
2 onward".  Evaluated here at a concrete failing input. -/
theorem driver_leak_on_fetch_failure :
    engDown.setup_webdriver = some () ∧
    (engDown.extract "http://unreachable.example" none none none).1 =
      RunResult.empty ∧
    (engDown.extract "http://unreachable.example"
        none none none).2.driver_quit = false :=
  ⟨rfl, rfl, rfl⟩

/-- C9: an empty configured enable list is falsy in Python
(`if enabled:`), so `get_available_extractors` returns all registered
extractor names. -/
theorem empty_enable_list_returns_all (pm : PluginManager)
    (h : pm.config_enabled_extractors = []) :
    pm.get_available_extractors = dictKeys pm.extractors := by
  unfold PluginManager.get_available_extractors
  simp [h]

/-- C9 witness. -/
theorem empty_enable_list_returns_all_witness :
    pmNoConfig.config_enabled_extractors = [] ∧
    pmNoConfig.get_available_extractors =
      ["color_extractor", "font_extractor"] := by
  have h := empty_enable_list_returns_all pmNoConfig rfl
  exact ⟨rfl, h.trans rfl⟩

/-- C7: with a non-empty enable list, `get_available_extractors` is
exactly the registered part of the list in list order, while
`get_available_generators` is all registered generator names whatever the
configured generator list says. -/
theorem enable_list_asymmetry (pm : PluginManager)
    (h : pm.config_enabled_extractors ≠ []) :
    pm.get_available_extractors =
      pm.config_enabled_extractors.filter
        (fun n => (dictLookup pm.extractors n).isSome) ∧
    List.Sublist pm.get_available_extractors pm.config_enabled_extractors ∧
    (∀ n, n ∈ pm.get_available_extractors ↔
      n ∈ pm.config_enabled_extractors ∧
      (dictLookup pm.extractors n).isSome = true) ∧
    (∀ gs, PluginManager.get_available_generators
        { pm with config_enabled_generators := gs } =
      dictKeys pm.generators) := by
  have h1 : pm.get_available_extractors =
      pm.config_enabled_extractors.filter
        (fun n => (dictLookup pm.extractors n).isSome) := by
    unfold PluginManager.get_available_extractors
    simp [h]
  refine ⟨h1, ?_, ?_, ?_⟩
  · rw [h1]
    exact List.filter_sublist _
  · intro n
    rw [h1]
    simp [List.mem_filter]
  · intro gs
    rfl

/-- C7 witness: enable list restricts extractors (dropping names that are
not registered and names outside the list), generators are unfiltered
despite a configured generator list. -/
theorem enable_list_asymmetry_witness :
    pmEnable.config_enabled_extractors ≠ [] ∧
    pmEnable.get_available_extractors = ["color_extractor"] ∧
    pmEnable.get_available_generators =
      ["css_generator", "json_generator", "mediawiki_generator"] := by
  have h := enable_list_asymmetry pmEnable (by decide)
  refine ⟨by decide, h.1.trans (by rfl), ?_⟩
  exact (h.2.2.2 ["css_generator"]).trans rfl

/-- C6: `get_default_format` fails exactly when zero generators are
registered; otherwise `"mediawiki"` is preferred whenever available, else
the first available format in registry order. -/
theorem default_format_spec (fm : FormatManager) :
    (fm.get_default_format =
        Except.error "No generator plugins available" ↔
      fm.plugin_manager.generators = []) ∧
    ("mediawiki" ∈ fm.get_available_formats →
      fm.get_default_format = Except.ok "mediawiki") ∧
    (∀ first rest, fm.get_available_formats = first :: rest →
      "mediawiki" ∉ fm.get_available_formats →
      fm.get_default_format = Except.ok first) := by
  have hav : (fm.get_available_formats = []) ↔
      (fm.plugin_manager.generators = []) := by
    unfold FormatManager.get_available_formats PluginManager.get_generators
    simp
  refine ⟨?_, ?_, ?_⟩
  · unfold FormatManager.get_default_format
    by_cases hava : fm.get_available_formats = []
    · simp [hava, hav.mp hava]
    · have hg : ¬ fm.plugin_manager.generators = [] :=
        fun hh => hava (hav.mpr hh)
      by_cases hmw : "mediawiki" ∈ fm.get_available_formats
      · simp [hava, hmw, hg]
      · simp [hava, hmw, hg]
  · intro hmw
    unfold FormatManager.get_default_format
    have hava : ¬ fm.get_available_formats = [] := by
      intro hh
      rw [hh] at hmw
      simp at hmw
    simp [hava, hmw]
  · intro first rest hfr hmw
    unfold FormatManager.get_default_format
    rw [hfr] at hmw ⊢
    simp only [List.mem_cons] at hmw
    push_neg at hmw
    simp [hmw.1, hmw.2]

/-- C6 witness: mediawiki preferred when present even though registered
last; first format in registry order otherwise; error with an empty
registry. -/
theorem default_format_spec_witness :
    fmWithMw.get_default_format = Except.ok "mediawiki" ∧
    fmNoMw.get_default_format = Except.ok "css" ∧
    fmNoGen.get_default_format =
      Except.error "No generator plugins available" := by
  refine ⟨(default_format_spec fmWithMw).2.1 (by decide), ?_,
    (default_format_spec fmNoGen).1.mpr rfl⟩
  exact (default_format_spec fmNoMw).2.2 "css" ["json"] rfl (by decide)

/-- C1 counterexample: with a successful fetch and a caller-supplied
extractor list containing the unregistered name `"ghost"`, the returned
envelope has no `"ghost"` key — refuting "the key is never absent, even
when no plugin with that name is registered". -/
theorem envelope_unregistered_key_absent :
    engGhost.get_soup "http://site.example" = some "<html>" ∧
    "ghost" ∈ resolved_extractors engGhost.plugin_manager (some ["ghost"]) ∧
    dictLookup ((engGhost.extract "http://site.example" (some ["ghost"])
        none none).1.extraction) "ghost" = none := by
  refine ⟨rfl, by decide, ?_⟩
  rfl

/-- C1 (amended): on a successful fetch, every name in the resolved
extractor list that has a registered plugin appears as a key of the
returned envelope, mapped to that plugin's result mapping (the empty
mapping when it raised); a resolved name with no registered plugin is
skipped silently and its key is absent. -/
theorem envelope_key_for_registered (eng : WebStyleExtractorEngine)
    (url : String)
    (enabled_extractors enabled_generators : Option (List String))
    (output_path : Option String) (soup : String)
    (hf : eng.get_soup url = some soup) (n : String)
    (hn : n ∈ resolved_extractors eng.plugin_manager enabled_extractors) :
    dictLookup ((eng.extract url enabled_extractors enabled_generators
        output_path).1.extraction) n =
      match eng.plugin_manager.get_extractor n with
      | some e => some (extractor_result e soup eng.setup_webdriver url)
      | none => none := by
  rw [extract_extraction_lookup eng url enabled_extractors
    enabled_generators output_path soup hf n]
  cases eng.plugin_manager.get_extractor n with
  | none => rfl
  | some e => simp [hn]

/-- C1 witness: a registered requested extractor's key is present with
its real result. -/
theorem envelope_key_for_registered_witness :
    "good_extractor" ∈ resolved_extractors pmTwo
      (some ["good_extractor", "ghost_extractor"]) ∧
    dictLookup ((engRun.extract "http://s.example"
        (some ["good_extractor", "ghost_extractor"])
        none none).1.extraction) "good_extractor" = some [("k", "v")] := by
  have h := envelope_key_for_registered engRun "http://s.example"
    (some ["good_extractor", "ghost_extractor"]) none none "<html>" rfl
    "good_extractor" (by decide)
  exact ⟨by decide, h.trans rfl⟩

/-- C4: when one resolved registered extractor raises, its key maps to
the empty mapping, every registered resolved extractor still has its own
result in the envelope, and every registered resolved generator is still
invoked. -/
theorem extractor_isolation (eng : WebStyleExtractorEngine) (url : String)
    (enabled_extractors enabled_generators : Option (List String))
    (output_path : Option String) (soup : String)
    (hf : eng.get_soup url = some soup) (n : String) (e : ExtractorI)
    (hreg : eng.plugin_manager.get_extractor n = some e)
    (hn : n ∈ resolved_extractors eng.plugin_manager enabled_extractors)
    (msg : String)
    (hraise : e.run soup eng.setup_webdriver url = Except.error msg) :
    dictLookup ((eng.extract url enabled_extractors enabled_generators
        output_path).1.extraction) n = some [] ∧
    (∀ m e', eng.plugin_manager.get_extractor m = some e' →
      m ∈ resolved_extractors eng.plugin_manager enabled_extractors →
      dictLookup ((eng.extract url enabled_extractors enabled_generators
          output_path).1.extraction) m =
        some (extractor_result e' soup eng.setup_webdriver url)) ∧
    (∀ g, g ∈ resolved_generators eng.plugin_manager enabled_generators →
      (eng.plugin_manager.get_generator g).isSome = true →
      g ∈ (eng.extract url enabled_extractors enabled_generators
          output_path).2.invoked_generators) := by
  refine ⟨?_, ?_, ?_⟩
  · rw [extract_extraction_lookup eng url enabled_extractors
      enabled_generators output_path soup hf n]
    simp [hreg, hn, extractor_result, hraise]
  · intro m e' hm hmm
    rw [extract_extraction_lookup eng url enabled_extractors
      enabled_generators output_path soup hf m]
    simp [hm, hmm]
  · intro g hg hgs
    rw [extract_invoked_generators_eq eng url enabled_extractors
      enabled_generators output_path soup hf]
    simp [List.mem_filter, hg, hgs]

/-- C4 witness: `bad_extractor` always raises, yet its key maps to the
empty mapping, `good_extractor`'s result is intact and the generator is
invoked. -/
theorem extractor_isolation_witness :
    dictLookup ((engRun.extract "http://s.example" none none
        none).1.extraction) "bad_extractor" = some [] ∧
    dictLookup ((engRun.extract "http://s.example" none none
        none).1.extraction) "good_extractor" = some [("k", "v")] ∧
    "json_generator" ∈ (engRun.extract "http://s.example" none none
        none).2.invoked_generators := by
  have h := extractor_isolation engRun "http://s.example" none none none
    "<html>" rfl "bad_extractor" extBoom rfl (by decide) "boom" rfl
  exact ⟨h.1, (h.2.1 "good_extractor" extOk rfl (by decide)).trans rfl,
    h.2.2 "json_generator" (by decide) (by decide)⟩

/-- C10: on a full run result, `extractors_used` equals the keys of the
extraction envelope and `generators_used` the keys of the generation
mapping; a name with no registered plugin of the respective kind appears
in neither list. -/
theorem metadata_lists_match_keys (eng : WebStyleExtractorEngine)
    (url : String)
    (enabled_extractors enabled_generators : Option (List String))
    (output_path : Option String) (soup : String)
    (hf : eng.get_soup url = some soup) :
    (eng.extract url enabled_extractors enabled_generators
        output_path).1.extractors_used =
      dictKeys ((eng.extract url enabled_extractors enabled_generators
        output_path).1.extraction) ∧
    (eng.extract url enabled_extractors enabled_generators
        output_path).1.generators_used =
      dictKeys ((eng.extract url enabled_extractors enabled_generators
        output_path).1.generation) ∧
    (∀ n, eng.plugin_manager.get_extractor n = none →
      n ∉ (eng.extract url enabled_extractors enabled_generators
        output_path).1.extractors_used) ∧
    (∀ n, eng.plugin_manager.get_generator n = none →
      n ∉ (eng.extract url enabled_extractors enabled_generators
        output_path).1.generators_used) := by
  refine ⟨extract_extractors_used_eq eng url enabled_extractors
      enabled_generators output_path soup hf,
    extract_generators_used_eq eng url enabled_extractors
      enabled_generators output_path soup hf, ?_, ?_⟩
  · intro n hnone
    rw [extract_extractors_used_eq eng url enabled_extractors
      enabled_generators output_path soup hf]
    apply not_mem_keys_of_dictLookup_eq_none
    rw [extract_extraction_lookup eng url enabled_extractors
      enabled_generators output_path soup hf n]
    simp [hnone]
  · intro n hnone
    rw [extract_generators_used_eq eng url enabled_extractors
      enabled_generators output_path soup hf]
    apply not_mem_keys_of_dictLookup_eq_none
    exact extract_generation_lookup_none eng url enabled_extractors
      enabled_generators output_path soup hf n hnone

/-- C10 witness: requested but unregistered names appear in neither
metadata list; the used lists equal the envelope keys. -/
theorem metadata_lists_match_keys_witness :
    (engRun.extract "http://s.example" (some ["good_extractor", "ghost"])
        (some ["json_generator", "ghost"]) none).1.extractors_used =
      ["good_extractor"] ∧
    (engRun.extract "http://s.example" (some ["good_extractor", "ghost"])
        (some ["json_generator", "ghost"]) none).1.generators_used =
      ["json_generator"] ∧
    "ghost" ∉ (engRun.extract "http://s.example"
        (some ["good_extractor", "ghost"])
        (some ["json_generator", "ghost"]) none).1.extractors_used ∧
    "ghost" ∉ (engRun.extract "http://s.example"
        (some ["good_extractor", "ghost"])
        (some ["json_generator", "ghost"]) none).1.generators_used := by
  have h := metadata_lists_match_keys engRun "http://s.example"
    (some ["good_extractor", "ghost"]) (some ["json_generator", "ghost"])
    none "<html>" rfl
  exact ⟨h.1.trans rfl, h.2.1.trans rfl, h.2.2.1 "ghost" rfl,
    h.2.2.2 "ghost" rfl⟩

/-- C5: for a format with a registered generator (first match on
`output_format`), `get_format_metadata` resolves each optional field
field-by-field: the plugin's declared value when truthy (non-empty),
otherwise the static fallback record's value for that field. -/
theorem format_metadata_field_merge (fm : FormatManager)
    (format_name : String) (p : GeneratorI)
    (hc : dictLookup fm.cache format_name = none)
    (hp : (fm.plugin_manager.get_generators).find?
      (fun gen => gen.output_format == format_name) = some p) :
    dictLookup (fm.get_format_metadata format_name).1 "description" =
      (if truthyS p.description then some (MVal.s (p.description.getD ""))
       else dictLookup (get_format_config fm.format_configs format_name)
         "description") ∧
    dictLookup (fm.get_format_metadata format_name).1 "emoji" =
      (if truthyS p.emoji then some (MVal.s (p.emoji.getD ""))
       else dictLookup (get_format_config fm.format_configs format_name)
         "emoji") ∧
    dictLookup (fm.get_format_metadata format_name).1 "short_description" =
      (if truthyS p.short_description then
        some (MVal.s (p.short_description.getD ""))
       else dictLookup (get_format_config fm.format_configs format_name)
         "short_description") ∧
    dictLookup (fm.get_format_metadata format_name).1 "full_description" =
      (if truthyS p.full_description then
        some (MVal.s (p.full_description.getD ""))
       else dictLookup (get_format_config fm.format_configs format_name)
         "full_description") ∧
    dictLookup (fm.get_format_metadata format_name).1 "file_extension" =
      (if truthyS p.file_extension then
        some (MVal.s (p.file_extension.getD ""))
       else dictLookup (get_format_config fm.format_configs format_name)
         "file_extension") ∧
    dictLookup (fm.get_format_metadata format_name).1 "capabilities" =
      (if truthyL p.capabilities then some (MVal.l (p.capabilities.getD []))
       else dictLookup (get_format_config fm.format_configs format_name)
         "capabilities") ∧
    dictLookup (fm.get_format_metadata format_name).1 "use_cases" =
      (if truthyL p.use_cases then some (MVal.l (p.use_cases.getD []))
       else dictLookup (get_format_config fm.format_configs format_name)
         "use_cases") := by
  have hm : (fm.get_format_metadata format_name).1 =
      apply_plugin_overrides p
        (get_format_config fm.format_configs format_name) := by
    unfold FormatManager.get_format_metadata
    rw [hc, hp]
  rw [hm]
  unfold apply_plugin_overrides
  refine ⟨?_, ?_, ?_, ?_, ?_, ?_, ?_⟩ <;>
    simp [dictLookup_override_same, dictLookup_override_ne]

/-- C5 witness: over `fmHybrid`, the plugin's `emoji = "X"` beats the
static `"Y"`, the unset `short_description` falls back to the static
value, and the plugin-only `description` is taken from the plugin. -/
theorem format_metadata_field_merge_witness :
    dictLookup (fmHybrid.get_format_metadata "json").1 "emoji" =
      some (MVal.s "X") ∧
    dictLookup (fmHybrid.get_format_metadata "json").1 "short_description" =
      some (MVal.s "fallback short") ∧
    dictLookup (fmHybrid.get_format_metadata "json").1 "description" =
      some (MVal.s "plugin json description") := by
  have h := format_metadata_field_merge fmHybrid "json" genDecorated rfl rfl
  exact ⟨h.2.1.trans rfl, h.2.2.1.trans rfl, h.1.trans rfl⟩

/-! ## Discovery lemmas (for C8) -/

theorem foldl_register_generator_extractors_eq (src : PluginSource)
    (l : List String) (pm : PluginManager) :
    (l.foldl (register_generator_step src) pm).extractors = pm.extractors := by
  induction l generalizing pm with
  | nil => rfl
  | cons a l ih =>
    rw [List.foldl_cons, ih]
    cases hga : src.load_generator a with
    | none => simp [register_generator_step, hga]
    | some g => simp [register_generator_step, hga]

theorem mem_loaded_foldl_register_extractor (src : PluginSource)
    (l : List String) (pm : PluginManager) (n : String)
    (h : n ∈ pm.loaded_plugins) :
    n ∈ (l.foldl (register_extractor_step src) pm).loaded_plugins := by
  induction l generalizing pm with
  | nil => exact h
  | cons a l ih =>
    rw [List.foldl_cons]
    apply ih
    cases hga : src.load_extractor a with
    | none => simpa [register_extractor_step, hga] using h
    | some e =>
      simp only [register_extractor_step, hga]
      exact mem_setInsert_of_mem _ _ _ h

theorem mem_loaded_foldl_register_generator (src : PluginSource)
    (l : List String) (pm : PluginManager) (n : String)
    (h : n ∈ pm.loaded_plugins) :
    n ∈ (l.foldl (register_generator_step src) pm).loaded_plugins := by
  induction l generalizing pm with
  | nil => exact h
  | cons a l ih =>
    rw [List.foldl_cons]
    apply ih
    cases hga : src.load_generator a with
    | none => simpa [register_generator_step, hga] using h
    | some g =>
      simp only [register_generator_step, hga]
      exact mem_setInsert_of_mem _ _ _ h

theorem foldl_register_extractor_preserves (src : PluginSource) (n : String)
    (e : ExtractorI) (hl : src.load_extractor n = some e) :
    ∀ (l : List String) (pm : PluginManager),
    dictLookup pm.extractors n = some e → n ∈ pm.loaded_plugins →
    dictLookup (l.foldl (register_extractor_step src) pm).extractors n =
      some e ∧
    n ∈ (l.foldl (register_extractor_step src) pm).loaded_plugins := by
  intro l
  induction l with
  | nil => exact fun pm h1 h2 => ⟨h1, h2⟩
  | cons a l ih =>
    intro pm h1 h2
    rw [List.foldl_cons]
    have hstep1 :
        dictLookup (register_extractor_step src pm a).extractors n =
          some e := by
      cases hga : src.load_extractor a with
      | none => simpa [register_extractor_step, hga] using h1
      | some ea =>
        simp only [register_extractor_step, hga]
        rw [dictLookup_dictInsert]
        by_cases han : a = n
        · subst han
          rw [hga] at hl
          injection hl with hl
          simp [hl]
        · simp [han, h1]
    have hstep2 : n ∈ (register_extractor_step src pm a).loaded_plugins := by
      cases hga : src.load_extractor a with
      | none => simpa [register_extractor_step, hga] using h2
      | some ea =>
        simp only [register_extractor_step, hga]
        exact mem_setInsert_of_mem _ _ _ h2
    exact ih _ hstep1 hstep2

theorem foldl_register_generator_preserves (src : PluginSource) (n : String)
    (g : GeneratorI) (hl : src.load_generator n = some g) :
    ∀ (l : List String) (pm : PluginManager),
    dictLookup pm.generators n = some g → n ∈ pm.loaded_plugins →
    dictLookup (l.foldl (register_generator_step src) pm).generators n =
      some g ∧
    n ∈ (l.foldl (register_generator_step src) pm).loaded_plugins := by
  intro l
  induction l with
  | nil => exact fun pm h1 h2 => ⟨h1, h2⟩
  | cons a l ih =>
    intro pm h1 h2
    rw [List.foldl_cons]
    have hstep1 :
        dictLookup (register_generator_step src pm a).generators n =
          some g := by
      cases hga : src.load_generator a with
      | none => simpa [register_generator_step, hga] using h1
      | some ga =>
        simp only [register_generator_step, hga]
        rw [dictLookup_dictInsert]
        by_cases han : a = n
        · subst han
          rw [hga] at hl
          injection hl with hl
          simp [hl]
        · simp [han, h1]
    have hstep2 : n ∈ (register_generator_step src pm a).loaded_plugins := by
      cases hga : src.load_generator a with
      | none => simpa [register_generator_step, hga] using h2
      | some ga =>
        simp only [register_generator_step, hga]
        exact mem_setInsert_of_mem _ _ _ h2
    exact ih _ hstep1 hstep2

theorem foldl_register_extractor_establishes (src : PluginSource)
    (n : String) (e : ExtractorI) (hl : src.load_extractor n = some e) :
    ∀ (l : List String) (pm : PluginManager), n ∈ l →
    dictLookup (l.foldl (register_extractor_step src) pm).extractors n =
      some e ∧
    n ∈ (l.foldl (register_extractor_step src) pm).loaded_plugins := by
  intro l
  induction l with
  | nil => intro pm hn; simp at hn
  | cons a l ih =>
    intro pm hn
    rw [List.foldl_cons]
    by_cases hnl : n ∈ l
    · exact ih _ hnl
    · have hna : n = a := by
        rcases List.mem_cons.mp hn with h | h
        · exact h
        · exact absurd h hnl
      subst hna
      have h1 :
          dictLookup (register_extractor_step src pm n).extractors n =
            some e := by
        simp [register_extractor_step, hl, dictLookup_dictInsert]
      have h2 : n ∈ (register_extractor_step src pm n).loaded_plugins := by
        simp only [register_extractor_step, hl]
        exact mem_setInsert_same _ _
      exact foldl_register_extractor_preserves src n e hl l _ h1 h2

theorem foldl_register_generator_establishes (src : PluginSource)
    (n : String) (g : GeneratorI) (hl : src.load_generator n = some g) :
    ∀ (l : List String) (pm : PluginManager), n ∈ l →
    dictLookup (l.foldl (register_generator_step src) pm).generators n =
      some g ∧
    n ∈ (l.foldl (register_generator_step src) pm).loaded_plugins := by
  intro l
  induction l with
  | nil => intro pm hn; simp at hn
  | cons a l ih =>
    intro pm hn
    rw [List.foldl_cons]
    by_cases hnl : n ∈ l
    · exact ih _ hnl
    · have hna : n = a := by
        rcases List.mem_cons.mp hn with h | h
        · exact h
        · exact absurd h hnl
      subst hna
      have h1 :
          dictLookup (register_generator_step src pm n).generators n =
            some g := by
        simp [register_generator_step, hl, dictLookup_dictInsert]
      have h2 : n ∈ (register_generator_step src pm n).loaded_plugins := by
        simp only [register_generator_step, hl]
        exact mem_setInsert_same _ _
      exact foldl_register_generator_preserves src n g hl l _ h1 h2

theorem foldl_register_extractor_noop (src : PluginSource) :
    ∀ (l : List String) (pm : PluginManager),
    (∀ n ∈ l, ∀ e, src.load_extractor n = some e →
      dictLookup pm.extractors n = some e ∧ n ∈ pm.loaded_plugins) →
    l.foldl (register_extractor_step src) pm = pm := by
  intro l
  induction l with
  | nil => intro pm _; rfl
  | cons a l ih =>
    intro pm h
    rw [List.foldl_cons]
    have hstep : register_extractor_step src pm a = pm := by
      cases hga : src.load_extractor a with
      | none => simp [register_extractor_step, hga]
      | some ea =>
        have hae := h a (List.mem_cons_self a l) ea hga
        simp [register_extractor_step, hga,
          dictInsert_self _ _ _ hae.1, setInsert_self _ _ hae.2]
    rw [hstep]
    exact ih pm (fun n hn e he => h n (List.mem_cons_of_mem a hn) e he)

theorem foldl_register_generator_noop (src : PluginSource) :
    ∀ (l : List String) (pm : PluginManager),
    (∀ n ∈ l, ∀ g, src.load_generator n = some g →
      dictLookup pm.generators n = some g ∧ n ∈ pm.loaded_plugins) →
    l.foldl (register_generator_step src) pm = pm := by
  intro l
  induction l with
  | nil => intro pm _; rfl
  | cons a l ih =>
    intro pm h
    rw [List.foldl_cons]
    have hstep : register_generator_step src pm a = pm := by
      cases hga : src.load_generator a with
      | none => simp [register_generator_step, hga]
      | some ga =>
        have hag := h a (List.mem_cons_self a l) ga hga
        simp [register_generator_step, hga,
          dictInsert_self _ _ _ hag.1, setInsert_self _ _ hag.2]
    rw [hstep]
    exact ih pm (fun n hn g hg => h n (List.mem_cons_of_mem a hn) g hg)

/-- C8: discovery is idempotent — running `discover_plugins` twice over a
fixed plugin source set leaves the registry (extractor map, generator
map, loaded set) exactly as after a single run: re-registration under the
same name overwrites with the same entry rather than duplicating. -/
theorem discover_plugins_idempotent (src : PluginSource)
    (pm : PluginManager) :
    discover_plugins src (discover_plugins src pm) =
      discover_plugins src pm := by
  unfold discover_plugins
  set lE := src.extractor_listing.filter (fun item => !item.startsWith "__")
    with hlE
  set lG := src.generator_listing.filter (fun item => !item.startsWith "__")
    with hlG
  have hE : lE.foldl (register_extractor_step src)
      (lG.foldl (register_generator_step src)
        (lE.foldl (register_extractor_step src) pm)) =
      lG.foldl (register_generator_step src)
        (lE.foldl (register_extractor_step src) pm) := by
    apply foldl_register_extractor_noop
    intro n hn e he
    have hest := foldl_register_extractor_establishes src n e he lE pm hn
    constructor
    · rw [foldl_register_generator_extractors_eq]
      exact hest.1
    · exact mem_loaded_foldl_register_generator src lG _ n hest.2
  rw [hE]
  apply foldl_register_generator_noop
  intro n hn g hg
  exact foldl_register_generator_establishes src n g hg lG
    (lE.foldl (register_extractor_step src) pm) hn

end WebStyleExtractor
